import Mathlib

/-
Verification of the Eulerian fluid solver of the TargetedDrugDelivery
repository.  The GPU kernels of `FluidShaders.js` are embedded as pure
per-cell functions over rational-valued textures, and the CPU-side
orchestration of `FluidSimulation.js` (`step`, `uploadBoundaries`,
`getVelocityAt`, `_sampleCache`) as functions over an explicit
simulation state.  Texture reads model WebGL NEAREST filtering with
CLAMP_TO_EDGE wrapping.  The GLSL built-ins `sin` and `sqrt` (and hence
`normalize` and `length`) are irrational over ℚ, so the embedding is
parametrised by an oracle supplying those two functions; every theorem
holds for an arbitrary oracle, which covers the actual GPU
implementations.
-/

namespace FluidSim

/-- A texture: a value for every texel coordinate pair. -/
abbrev Tex (α : Type) := Nat → Nat → α

/-- Oracle for the GLSL built-ins that have no rational realisation.
`sinF` models `sin`; `sqrtF` models `sqrt` (hence `length` and
`normalize`). -/
structure Oracle where
  sinF : ℚ → ℚ
  sqrtF : ℚ → ℚ

/-- GLSL `fract`. -/
def fract (x : ℚ) : ℚ := x - ⌊x⌋

/-- GLSL scalar `clamp`. -/
def clampQ (x lo hi : ℚ) : ℚ := min (max x lo) hi

/-- GLSL `mix` (linear interpolation). -/
def mixQ (a b t : ℚ) : ℚ := a * (1 - t) + b * t

/-- GLSL `smoothstep`. -/
def smoothstep (e0 e1 x : ℚ) : ℚ :=
  let t := clampQ ((x - e0) / (e1 - e0)) 0 1
  t * t * (3 - 2 * t)

/-- GLSL `sign`. -/
def signQ (x : ℚ) : ℚ := if 0 < x then 1 else if x < 0 then -1 else 0

/-- Clamp an integer texel index into `[0, n-1]` (CLAMP_TO_EDGE). -/
def clampIdx (n : Nat) (i : ℤ) : Nat := (min (max i 0) ((n : ℤ) - 1)).toNat

/-- NEAREST-filtered texture lookup at a UV coordinate: texel `i` covers
`[i/W, (i+1)/W)` and indices clamp to the edge. -/
def texSample {α : Type} (W H : Nat) (T : Tex α) (uv : ℚ × ℚ) : α :=
  T (clampIdx W ⌊uv.1 * W⌋) (clampIdx H ⌊uv.2 * H⌋)

/-- UV coordinate of the centre of texel `(x, y)` (the fragment's `vUv`). -/
def cellUV (W H x y : Nat) : ℚ × ℚ :=
  (((x : ℚ) + 1/2) / W, ((y : ℚ) + 1/2) / H)

/-- The `texelSize` vector `1.0 / uResolution`. -/
def texel (W H : Nat) : ℚ × ℚ := (1 / (W : ℚ), 1 / (H : ℚ))

theorem floor_add_half (n : Nat) : ⌊(n : ℚ) + 1/2⌋ = (n : ℤ) := by
  rw [Int.floor_eq_iff]
  push_cast
  constructor <;> norm_num

theorem clampIdx_natCast (n x : Nat) (hx : x < n) : clampIdx n (x : ℤ) = x := by
  unfold clampIdx
  omega

/-- Sampling a texture at the centre of an in-range texel reads that texel. -/
theorem texSample_cellUV {α : Type} (W H : Nat) (T : Tex α) (x y : Nat)
    (hx : x < W) (hy : y < H) :
    texSample W H T (cellUV W H x y) = T x y := by
  have hW : ((W : ℚ)) ≠ 0 := by
    exact_mod_cast (lt_of_le_of_lt (Nat.zero_le x) hx).ne'
  have hH : ((H : ℚ)) ≠ 0 := by
    exact_mod_cast (lt_of_le_of_lt (Nat.zero_le y) hy).ne'
  have e1 : ((x : ℚ) + 1/2) / W * W = (x : ℚ) + 1/2 := div_mul_cancel₀ _ hW
  have e2 : ((y : ℚ) + 1/2) / H * H = (y : ℚ) + 1/2 := div_mul_cancel₀ _ hH
  simp only [texSample, cellUV]
  rw [e1, e2, floor_add_half, floor_add_half, clampIdx_natCast W x hx,
    clampIdx_natCast H y hy]

/-! ### Boundary enforcement kernel (`FluidShaders.boundaryEnforce`) -/

/-- The `boundaryEnforce` fragment shader: solid cells get velocity zero;
fluid cells have any velocity component that points into a solid cardinal
neighbour set to zero. -/
def boundaryEnforceK (W H : Nat) (V : Tex (ℚ × ℚ)) (B : Tex ℚ)
    (x y : Nat) : ℚ × ℚ :=
  let uv := cellUV W H x y
  let ts := texel W H
  let boundary := texSample W H B uv
  if boundary > 1/2 then (0, 0)
  else
    let v := texSample W H V uv
    let bL := texSample W H B (uv.1 - ts.1, uv.2)
    let bR := texSample W H B (uv.1 + ts.1, uv.2)
    let bB := texSample W H B (uv.1, uv.2 - ts.2)
    let bT := texSample W H B (uv.1, uv.2 + ts.2)
    let vx := if bL > 1/2 ∧ v.1 < 0 then 0 else v.1
    let vx := if bR > 1/2 ∧ vx > 0 then 0 else vx
    let vy := if bB > 1/2 ∧ v.2 < 0 then 0 else v.2
    let vy := if bT > 1/2 ∧ vy > 0 then 0 else vy
    (vx, vy)

/-- Claim C1: after the boundary-enforcement pass, every cell whose
boundary mask is 1 (solid) has velocity exactly (0, 0) in the output
buffer. -/
theorem boundaryEnforce_solid_zero (W H : Nat) (V : Tex (ℚ × ℚ)) (B : Tex ℚ)
    (x y : Nat) (hx : x < W) (hy : y < H) (hsolid : B x y = 1) :
    boundaryEnforceK W H V B x y = (0, 0) := by
  simp only [boundaryEnforceK, texSample_cellUV W H B x y hx hy, hsolid]
  norm_num

theorem boundaryEnforce_solid_zero_witness :
    boundaryEnforceK 4 4 (fun _ _ => (3, -2)) (fun _ _ => 1) 2 1 = (0, 0) :=
  boundaryEnforce_solid_zero 4 4 (fun _ _ => (3, -2)) (fun _ _ => 1) 2 1
    (by decide) (by decide) rfl

theorem texSample_left {α : Type} (W H : Nat) (T : Tex α) (x y : Nat)
    (hx : x < W) (hy : y < H) (h1 : 1 ≤ x) :
    texSample W H T ((cellUV W H x y).1 - (texel W H).1, (cellUV W H x y).2)
      = T (x - 1) y := by
  have hW : ((W : ℚ)) ≠ 0 := by
    exact_mod_cast (lt_of_le_of_lt (Nat.zero_le x) hx).ne'
  have hH : ((H : ℚ)) ≠ 0 := by
    exact_mod_cast (lt_of_le_of_lt (Nat.zero_le y) hy).ne'
  have e1 : (((x : ℚ) + 1/2) / W - 1 / W) * W = (x : ℚ) - 1/2 := by
    field_simp
    ring
  have e2 : ((y : ℚ) + 1/2) / H * H = (y : ℚ) + 1/2 := div_mul_cancel₀ _ hH
  have f1 : ⌊(x : ℚ) - 1/2⌋ = (x : ℤ) - 1 := by
    rw [Int.floor_eq_iff]
    push_cast
    constructor <;> linarith
  have g1 : clampIdx W ((x : ℤ) - 1) = x - 1 := by
    unfold clampIdx
    omega
  simp only [texSample, cellUV, texel]
  rw [e1, e2, f1, floor_add_half, g1, clampIdx_natCast H y hy]

theorem texSample_right {α : Type} (W H : Nat) (T : Tex α) (x y : Nat)
    (hx : x + 1 < W) (hy : y < H) :
    texSample W H T ((cellUV W H x y).1 + (texel W H).1, (cellUV W H x y).2)
      = T (x + 1) y := by
  have hW : ((W : ℚ)) ≠ 0 := by
    exact_mod_cast (lt_of_lt_of_le (Nat.zero_lt_succ x) hx.le).ne'
  have hH : ((H : ℚ)) ≠ 0 := by
    exact_mod_cast (lt_of_le_of_lt (Nat.zero_le y) hy).ne'
  have e1 : (((x : ℚ) + 1/2) / W + 1 / W) * W = ((x + 1 : ℕ) : ℚ) + 1/2 := by
    push_cast
    field_simp
    ring
  have e2 : ((y : ℚ) + 1/2) / H * H = (y : ℚ) + 1/2 := div_mul_cancel₀ _ hH
  simp only [texSample, cellUV, texel]
  rw [e1, e2, floor_add_half, floor_add_half, clampIdx_natCast W (x + 1) hx,
    clampIdx_natCast H y hy]

theorem texSample_below {α : Type} (W H : Nat) (T : Tex α) (x y : Nat)
    (hx : x < W) (hy : y < H) (h1 : 1 ≤ y) :
    texSample W H T ((cellUV W H x y).1, (cellUV W H x y).2 - (texel W H).2)
      = T x (y - 1) := by
  have hW : ((W : ℚ)) ≠ 0 := by
    exact_mod_cast (lt_of_le_of_lt (Nat.zero_le x) hx).ne'
  have hH : ((H : ℚ)) ≠ 0 := by
    exact_mod_cast (lt_of_le_of_lt (Nat.zero_le y) hy).ne'
  have e1 : ((x : ℚ) + 1/2) / W * W = (x : ℚ) + 1/2 := div_mul_cancel₀ _ hW
  have e2 : (((y : ℚ) + 1/2) / H - 1 / H) * H = (y : ℚ) - 1/2 := by
    field_simp
    ring
  have f2 : ⌊(y : ℚ) - 1/2⌋ = (y : ℤ) - 1 := by
    rw [Int.floor_eq_iff]
    push_cast
    constructor <;> linarith
  have g2 : clampIdx H ((y : ℤ) - 1) = y - 1 := by
    unfold clampIdx
    omega
  simp only [texSample, cellUV, texel]
  rw [e1, e2, floor_add_half, f2, clampIdx_natCast W x hx, g2]

theorem texSample_above {α : Type} (W H : Nat) (T : Tex α) (x y : Nat)
    (hx : x < W) (hy : y + 1 < H) :
    texSample W H T ((cellUV W H x y).1, (cellUV W H x y).2 + (texel W H).2)
      = T x (y + 1) := by
  have hW : ((W : ℚ)) ≠ 0 := by
    exact_mod_cast (lt_of_le_of_lt (Nat.zero_le x) hx).ne'
  have hH : ((H : ℚ)) ≠ 0 := by
    exact_mod_cast (lt_of_lt_of_le (Nat.zero_lt_succ y) hy.le).ne'
  have e1 : ((x : ℚ) + 1/2) / W * W = (x : ℚ) + 1/2 := div_mul_cancel₀ _ hW
  have e2 : (((y : ℚ) + 1/2) / H + 1 / H) * H = ((y + 1 : ℕ) : ℚ) + 1/2 := by
    push_cast
    field_simp
    ring
  simp only [texSample, cellUV, texel]
  rw [e1, e2, floor_add_half, floor_add_half, clampIdx_natCast W x hx,
    clampIdx_natCast H (y + 1) hy]

/-- Claim C2: after the boundary-enforcement pass, a fluid cell (mask 0)
never keeps a velocity component pointing into a solid cardinal
neighbour: a solid left neighbour forces `vx ≥ 0`, a solid right
neighbour forces `vx ≤ 0`, a solid neighbour below forces `vy ≥ 0`, and
a solid neighbour above forces `vy ≤ 0`. -/
theorem boundaryEnforce_no_penetration (W H : Nat) (V : Tex (ℚ × ℚ)) (B : Tex ℚ)
    (x y : Nat) (hx : x < W) (hy : y < H) (hfluid : B x y = 0) :
    (1 ≤ x → B (x - 1) y = 1 → 0 ≤ (boundaryEnforceK W H V B x y).1) ∧
    (x + 1 < W → B (x + 1) y = 1 → (boundaryEnforceK W H V B x y).1 ≤ 0) ∧
    (1 ≤ y → B x (y - 1) = 1 → 0 ≤ (boundaryEnforceK W H V B x y).2) ∧
    (y + 1 < H → B x (y + 1) = 1 → (boundaryEnforceK W H V B x y).2 ≤ 0) := by
  refine ⟨?_, ?_, ?_, ?_⟩
  · intro hge hb
    have hbL : texSample W H B
        ((cellUV W H x y).1 - (texel W H).1, (cellUV W H x y).2) = 1 := by
      rw [texSample_left W H B x y hx hy hge, hb]
    simp only [boundaryEnforceK, texSample_cellUV W H B x y hx hy, hfluid, hbL]
    norm_num
    split_ifs <;> linarith
  · intro hlt hb
    have hbR : texSample W H B
        ((cellUV W H x y).1 + (texel W H).1, (cellUV W H x y).2) = 1 := by
      rw [texSample_right W H B x y hlt hy, hb]
    simp only [boundaryEnforceK, texSample_cellUV W H B x y hx hy, hfluid, hbR]
    norm_num
    split_ifs <;> linarith
  · intro hge hb
    have hbB : texSample W H B
        ((cellUV W H x y).1, (cellUV W H x y).2 - (texel W H).2) = 1 := by
      rw [texSample_below W H B x y hx hy hge, hb]
    simp only [boundaryEnforceK, texSample_cellUV W H B x y hx hy, hfluid, hbB]
    norm_num
    split_ifs <;> linarith
  · intro hlt hb
    have hbT : texSample W H B
        ((cellUV W H x y).1, (cellUV W H x y).2 + (texel W H).2) = 1 := by
      rw [texSample_above W H B x y hx hlt, hb]
    simp only [boundaryEnforceK, texSample_cellUV W H B x y hx hy, hfluid, hbT]
    norm_num
    split_ifs <;> linarith

theorem boundaryEnforce_no_penetration_witness :
    0 ≤ (boundaryEnforceK 3 3 (fun _ _ => (-4, 7))
      (fun a b => if a = 0 ∧ b = 1 then 1 else 0) 1 1).1 :=
  (boundaryEnforce_no_penetration 3 3 (fun _ _ => (-4, 7))
    (fun a b => if a = 0 ∧ b = 1 then 1 else 0) 1 1
    (by decide) (by decide) (by decide)).1 (by decide) (by decide)

/-! ### Semi-Lagrangian advection kernel (`FluidShaders.advection`) -/

/-- GLSL `normalize` on a 2-vector, via the oracle square root. -/
def normalizeV (o : Oracle) (v : ℚ × ℚ) : ℚ × ℚ :=
  let len := o.sqrtF (v.1 * v.1 + v.2 * v.2)
  (v.1 / len, v.2 / len)

/-- Componentwise clamp of a UV coordinate to `[0.001, 0.999]`. -/
def clampUV (p : ℚ × ℚ) : ℚ × ℚ :=
  (clampQ p.1 (1/1000) (999/1000), clampQ p.2 (1/1000) (999/1000))

/-- The bounded walk of the advection shader: starting from the backtraced
point, step along `stp` (half a texel in the current velocity direction) up
to the fuel budget, clamping each candidate, and return the first candidate
that lies in a fluid texel, or `none` if the budget runs out. -/
def advectWalk (W H : Nat) (B : Tex ℚ) (stp : ℚ × ℚ) :
    Nat → ℚ × ℚ → Option (ℚ × ℚ)
  | 0, _ => none
  | n + 1, t =>
    let t' := clampUV (t.1 + stp.1, t.2 + stp.2)
    if texSample W H B t' < 1/2 then some t'
    else advectWalk W H B stp n t'

/-- The naively backtraced source coordinate `vUv - velocity * texelSize * uDt`,
clamped to the valid range. -/
def advectBacktrace (W H : Nat) (uv v : ℚ × ℚ) (dt : ℚ) : ℚ × ℚ :=
  clampUV (uv.1 - v.1 * (texel W H).1 * dt, uv.2 - v.2 * (texel W H).2 * dt)

/-- The source location the advection shader finally samples: the clamped
backtrace if it is fluid, otherwise the first fluid point of the 8-step walk
along the current velocity direction, otherwise the cell's own position. -/
def advectSourceUV (o : Oracle) (W H : Nat) (B : Tex ℚ) (uv v : ℚ × ℚ)
    (dt : ℚ) : ℚ × ℚ :=
  let sourceUV := advectBacktrace W H uv v dt
  if texSample W H B sourceUV > 1/2 then
    let dir := normalizeV o v
    let sourceUV :=
      (advectWalk W H B (dir.1 * (texel W H).1 * (1/2), dir.2 * (texel W H).2 * (1/2))
        8 sourceUV).getD sourceUV
    if texSample W H B sourceUV > 1/2 then uv else sourceUV
  else sourceUV

/-- The advection fragment shader: masked cells output zero, fluid cells
sample the advected quantity at the safe source location and apply
dissipation. -/
def advectionK (o : Oracle) (W H : Nat) (V Q : Tex (ℚ × ℚ)) (B : Tex ℚ)
    (dt dissipation : ℚ) (x y : Nat) : ℚ × ℚ :=
  let uv := cellUV W H x y
  let boundary := texSample W H B uv
  if boundary > 1/2 then (0, 0)
  else
    let velocity := texSample W H V uv
    let sourceUV := advectSourceUV o W H B uv velocity dt
    let result := texSample W H Q sourceUV
    (result.1 * dissipation, result.2 * dissipation)

/-- Claim C3: for a non-masked position, the source location finally
sampled by the advection kernel is never inside a solid cell: the
backtraced point is replaced by the bounded walk's first fluid point, and
failing that by the cell's own position. -/
theorem advectSource_not_solid (o : Oracle) (W H : Nat) (B : Tex ℚ)
    (uv v : ℚ × ℚ) (dt : ℚ)
    (hfluid : ¬ texSample W H B uv > 1/2) :
    ¬ texSample W H B (advectSourceUV o W H B uv v dt) > 1/2 := by
  simp only [advectSourceUV]
  by_cases h0 : texSample W H B (advectBacktrace W H uv v dt) > 1/2
  · rw [if_pos h0]
    split
    · exact hfluid
    · next h => exact h
  · rw [if_neg h0]
    exact h0

theorem advectSource_not_solid_witness :
    ¬ texSample 4 4 (fun x _ => if x = 0 then (1 : ℚ) else 0)
      (advectSourceUV (Oracle.mk (fun _ => 0) (fun _ => 200)) 4 4
        (fun x _ => if x = 0 then (1 : ℚ) else 0)
        (cellUV 4 4 2 2) (200, 0) 1) > 1/2 :=
  advectSource_not_solid (Oracle.mk (fun _ => 0) (fun _ => 200)) 4 4
    (fun x _ => if x = 0 then (1 : ℚ) else 0) (cellUV 4 4 2 2) (200, 0) 1
    (by rw [texSample_cellUV 4 4 _ 2 2 (by norm_num) (by norm_num)]; norm_num)

/-! ### Viscous diffusion kernel (`FluidShaders.diffusion`) -/

/-- The `diffusion` fragment shader: one Jacobi iteration of the implicit
viscous diffusion solve, with no-slip treatment of solid neighbours. -/
def diffusionK (W H : Nat) (V : Tex (ℚ × ℚ)) (B : Tex ℚ)
    (viscosity dt : ℚ) (x y : Nat) : ℚ × ℚ :=
  let uv := cellUV W H x y
  let ts := texel W H
  let boundary := texSample W H B uv
  if boundary > 1/2 then (0, 0)
  else
    let vC := texSample W H V uv
    let vL := texSample W H V (uv.1 - ts.1, uv.2)
    let vR := texSample W H V (uv.1 + ts.1, uv.2)
    let vB := texSample W H V (uv.1, uv.2 - ts.2)
    let vT := texSample W H V (uv.1, uv.2 + ts.2)
    let bL := texSample W H B (uv.1 - ts.1, uv.2)
    let bR := texSample W H B (uv.1 + ts.1, uv.2)
    let bB := texSample W H B (uv.1, uv.2 - ts.2)
    let bT := texSample W H B (uv.1, uv.2 + ts.2)
    let vL := if bL > 1/2 then (0, 0) else vL
    let vR := if bR > 1/2 then (0, 0) else vR
    let vB := if bB > 1/2 then (0, 0) else vB
    let vT := if bT > 1/2 then (0, 0) else vT
    let alpha := viscosity * dt
    ((vC.1 + alpha * (vL.1 + vR.1 + vB.1 + vT.1)) / (1 + 4 * alpha),
     (vC.2 + alpha * (vL.2 + vR.2 + vB.2 + vT.2)) / (1 + 4 * alpha))

/-- Modelled from the spec's words for §4.4: one diffusion iteration
computes `v_new = (v_old + α·Σneighbours) / (1 + 4α)` with
`α = viscosity · dt`, where a neighbour lying in a solid cell contributes
zero velocity, and masked cells output zero.  Stated independently of the
shader text, to be compared with `diffusionK`. -/
def diffusionSpec (W H : Nat) (V : Tex (ℚ × ℚ)) (B : Tex ℚ)
    (viscosity dt : ℚ) (x y : Nat) : ℚ × ℚ :=
  if texSample W H B (cellUV W H x y) > 1/2 then (0, 0)
  else
    let alpha := viscosity * dt
    let contrib : ℚ × ℚ → ℚ × ℚ := fun p =>
      if texSample W H B p > 1/2 then (0, 0) else texSample W H V p
    let uv := cellUV W H x y
    let ts := texel W H
    let nbhd := [(uv.1 - ts.1, uv.2), (uv.1 + ts.1, uv.2),
      (uv.1, uv.2 - ts.2), (uv.1, uv.2 + ts.2)]
    let sum := (nbhd.map contrib).foldl
      (fun a b => (a.1 + b.1, a.2 + b.2)) (0, 0)
    let vOld := texSample W H V uv
    ((vOld.1 + alpha * sum.1) / (1 + 4 * alpha),
     (vOld.2 + alpha * sum.2) / (1 + 4 * alpha))

/-- Claim C7: the diffusion kernel computes, for every non-masked cell,
`v_new = (v_old + α·(vL + vR + vB + vT)) / (1 + 4α)` with
`α = viscosity·dt`, where solid neighbours contribute zero velocity, and
outputs zero for masked cells: the shader agrees with the spec's formula
at every cell. -/
theorem diffusion_matches_spec (W H : Nat) (V : Tex (ℚ × ℚ)) (B : Tex ℚ)
    (viscosity dt : ℚ) (x y : Nat) :
    diffusionK W H V B viscosity dt x y
      = diffusionSpec W H V B viscosity dt x y := by
  simp only [diffusionK, diffusionSpec, List.map_cons, List.map_nil,
    List.foldl_cons, List.foldl_nil]
  split_ifs <;>
    first
      | rfl
      | (simp only [Prod.mk.injEq]
         constructor <;> ring)

/-! ### Divergence, pressure, gradient, vorticity kernels -/

/-- The `divergence` fragment shader: central difference of neighbour
velocities, treating solid neighbours as zero velocity.  It has no
early-out for masked cells. -/
def divergenceK (W H : Nat) (V : Tex (ℚ × ℚ)) (B : Tex ℚ) (x y : Nat) : ℚ :=
  let uv := cellUV W H x y
  let ts := texel W H
  let vL := texSample W H V (uv.1 - ts.1, uv.2)
  let vR := texSample W H V (uv.1 + ts.1, uv.2)
  let vB := texSample W H V (uv.1, uv.2 - ts.2)
  let vT := texSample W H V (uv.1, uv.2 + ts.2)
  let bL := texSample W H B (uv.1 - ts.1, uv.2)
  let bR := texSample W H B (uv.1 + ts.1, uv.2)
  let bB := texSample W H B (uv.1, uv.2 - ts.2)
  let bT := texSample W H B (uv.1, uv.2 + ts.2)
  let vL := if bL > 0.5 then ((0 : ℚ), (0 : ℚ)) else vL
  let vR := if bR > 0.5 then ((0 : ℚ), (0 : ℚ)) else vR
  let vB := if bB > 0.5 then ((0 : ℚ), (0 : ℚ)) else vB
  let vT := if bT > 0.5 then ((0 : ℚ), (0 : ℚ)) else vT
  0.5 * ((vR.1 - vL.1) + (vT.2 - vB.2))

/-- The `pressure` fragment shader: one Jacobi iteration of the Poisson
solve, substituting the centre pressure for solid neighbours; masked cells
output zero. -/
def pressureK (W H : Nat) (P D B : Tex ℚ) (x y : Nat) : ℚ :=
  let uv := cellUV W H x y
  let ts := texel W H
  let boundary := texSample W H B uv
  if boundary > 0.5 then 0
  else
    let pL := texSample W H P (uv.1 - ts.1, uv.2)
    let pR := texSample W H P (uv.1 + ts.1, uv.2)
    let pB := texSample W H P (uv.1, uv.2 - ts.2)
    let pT := texSample W H P (uv.1, uv.2 + ts.2)
    let bL := texSample W H B (uv.1 - ts.1, uv.2)
    let bR := texSample W H B (uv.1 + ts.1, uv.2)
    let bB := texSample W H B (uv.1, uv.2 - ts.2)
    let bT := texSample W H B (uv.1, uv.2 + ts.2)
    let pC := texSample W H P uv
    let pL := if bL > 0.5 then pC else pL
    let pR := if bR > 0.5 then pC else pR
    let pB := if bB > 0.5 then pC else pB
    let pT := if bT > 0.5 then pC else pT
    let divergence := texSample W H D uv
    (pL + pR + pB + pT - divergence) * 0.25

/-- The `gradient` fragment shader (projection step): subtract the central
pressure gradient from the velocity, with the same solid-neighbour
substitution as the pressure solve; masked cells output zero. -/
def gradientK (W H : Nat) (V : Tex (ℚ × ℚ)) (P B : Tex ℚ) (x y : Nat) :
    ℚ × ℚ :=
  let uv := cellUV W H x y
  let boundary := texSample W H B uv
  if boundary > 0.5 then (0, 0)
  else
    let ts := texel W H
    let pL := texSample W H P (uv.1 - ts.1, uv.2)
    let pR := texSample W H P (uv.1 + ts.1, uv.2)
    let pB := texSample W H P (uv.1, uv.2 - ts.2)
    let pT := texSample W H P (uv.1, uv.2 + ts.2)
    let bL := texSample W H B (uv.1 - ts.1, uv.2)
    let bR := texSample W H B (uv.1 + ts.1, uv.2)
    let bB := texSample W H B (uv.1, uv.2 - ts.2)
    let bT := texSample W H B (uv.1, uv.2 + ts.2)
    let pC := texSample W H P uv
    let pL := if bL > 0.5 then pC else pL
    let pR := if bR > 0.5 then pC else pR
    let pB := if bB > 0.5 then pC else pB
    let pT := if bT > 0.5 then pC else pT
    let gradient := ((pR - pL) * 0.5, (pT - pB) * 0.5)
    let velocity := texSample W H V uv
    (velocity.1 - gradient.1, velocity.2 - gradient.2)

/-- The `vorticity` fragment shader: 2-D curl by central differences (no
boundary handling). -/
def vorticityK (W H : Nat) (V : Tex (ℚ × ℚ)) (x y : Nat) : ℚ :=
  let uv := cellUV W H x y
  let ts := texel W H
  let vL := texSample W H V (uv.1 - ts.1, uv.2)
  let vR := texSample W H V (uv.1 + ts.1, uv.2)
  let vB := texSample W H V (uv.1, uv.2 - ts.2)
  let vT := texSample W H V (uv.1, uv.2 + ts.2)
  ((vR.2 - vL.2) - (vT.1 - vB.1)) * 0.5

/-- The `vorticityForce` fragment shader: confinement force perpendicular
to the normalised gradient of vorticity magnitude, zero when the gradient
length is at most `1e-5`; masked cells output zero. -/
def vorticityForceK (o : Oracle) (W H : Nat) (V : Tex (ℚ × ℚ))
    (Vort B : Tex ℚ) (strength dt : ℚ) (x y : Nat) : ℚ × ℚ :=
  let uv := cellUV W H x y
  let boundary := texSample W H B uv
  if boundary > 0.5 then (0, 0)
  else
    let ts := texel W H
    let vL := texSample W H Vort (uv.1 - ts.1, uv.2)
    let vR := texSample W H Vort (uv.1 + ts.1, uv.2)
    let vB := texSample W H Vort (uv.1, uv.2 - ts.2)
    let vT := texSample W H Vort (uv.1, uv.2 + ts.2)
    let vC := texSample W H Vort uv
    let gradVort := ((|vR| - |vL|) * 0.5, (|vT| - |vB|) * 0.5)
    let len := o.sqrtF (gradVort.1 * gradVort.1 + gradVort.2 * gradVort.2)
    let gradVort :=
      if len > 1e-5 then (gradVort.1 / len, gradVort.2 / len)
      else ((0 : ℚ), (0 : ℚ))
    let force := (gradVort.2 * vC * strength, -gradVort.1 * vC * strength)
    let velocity := texSample W H V uv
    (velocity.1 + force.1 * dt, velocity.2 + force.2 * dt)

/-! ### Force / turbulence injection kernel (`FluidShaders.addForce`) -/

/-- The shader's `hash` function: a pseudo-random value that depends only
on the input point (through the oracle sine). -/
def hashG (o : Oracle) (p : ℚ × ℚ) : ℚ :=
  fract (o.sinF (p.1 * 127.1 + p.2 * 311.7) * 43758.5453)

/-- The shader's value-noise function. -/
def noiseG (o : Oracle) (p : ℚ × ℚ) : ℚ :=
  let i : ℚ × ℚ := ((⌊p.1⌋ : ℚ), (⌊p.2⌋ : ℚ))
  let f : ℚ × ℚ := (fract p.1, fract p.2)
  let f : ℚ × ℚ := (f.1 * f.1 * (3 - 2 * f.1), f.2 * f.2 * (3 - 2 * f.2))
  let a := hashG o i
  let b := hashG o (i.1 + 1, i.2)
  let c := hashG o (i.1, i.2 + 1)
  let d := hashG o (i.1 + 1, i.2 + 1)
  mixQ (mixQ a b f.1) (mixQ c d f.1) f.2

/-- Loop body of the shader's fractal-Brownian-motion accumulator. -/
def fbmAux (o : Oracle) : Nat → ℚ × ℚ → ℚ → ℚ → ℚ
  | 0, _, _, value => value
  | n + 1, p, amplitude, value =>
    fbmAux o n (2 * p.1, 2 * p.2) (amplitude * 0.5)
      (value + amplitude * noiseG o p)

/-- The shader's `fbm`: four octaves of value noise. -/
def fbmG (o : Oracle) (p : ℚ × ℚ) : ℚ := fbmAux o 4 p 0.5 0

/-- The upstream wake-detection loop of `addForce` (`dist = 1..25`, with
the GLSL `break` on the first solid upstream texel): returns
`(wakeStrength, wakeSign, wakeDistance)`. -/
def wakeScan (o : Oracle) (W H : Nat) (B : Tex ℚ) (uv ts : ℚ × ℚ)
    (time : ℚ) : List ℚ → ℚ × ℚ × ℚ
  | [] => (0, 0, 0)
  | dist :: rest =>
    let upstreamUV := (uv.1 - ts.1 * dist, uv.2)
    if upstreamUV.1 ≥ 0 then
      if texSample W H B upstreamUV > 0.5 then
        let falloff := 1 - dist / 30
        let wakeStrength := max 0 (falloff * 0.8)
        let boundAbove := texSample W H B (upstreamUV.1, upstreamUV.2 + ts.2 * 3)
        let boundBelow := texSample W H B (upstreamUV.1, upstreamUV.2 - ts.2 * 3)
        let wakeSign :=
          if boundAbove < 0.5 ∧ boundBelow > 0.5 then 1
          else if boundBelow < 0.5 ∧ boundAbove > 0.5 then -1
          else signQ (o.sinF (uv.2 * 40 + time * 5 - dist * 0.3))
        (wakeStrength, wakeSign, dist)
      else wakeScan o W H B uv ts time rest
    else wakeScan o W H B uv ts time rest

/-- The diagonal wake-detection loop of `addForce` (`dist = 1, 3, .., 15`,
no break), folding over `(wakeStrength, wakeSign)`. -/
def diagScan (W H : Nat) (B : Tex ℚ) (uv ts : ℚ × ℚ) :
    List ℚ → ℚ × ℚ → ℚ × ℚ
  | [], acc => acc
  | dist :: rest, acc =>
    let upstreamUVTop := (uv.1 - ts.1 * dist, uv.2 + ts.2 * dist * 0.5)
    let upstreamUVBot := (uv.1 - ts.1 * dist, uv.2 - ts.2 * dist * 0.5)
    if upstreamUVTop.1 ≥ 0 then
      let boundTop := texSample W H B upstreamUVTop
      let boundBot := texSample W H B upstreamUVBot
      let acc :=
        if boundTop > 0.5 then
          (max acc.1 ((1 - dist / 20) * 0.6), if acc.2 = 0 then -1 else acc.2)
        else acc
      let acc :=
        if boundBot > 0.5 then
          (max acc.1 ((1 - dist / 20) * 0.6), if acc.2 = 0 then 1 else acc.2)
        else acc
      diagScan W H B uv ts rest acc
    else diagScan W H B uv ts rest acc

/-- The 5×5 neighbourhood scan of `addForce` for near-boundary cells. -/
def nearBoundaryMax (W H : Nat) (B : Tex ℚ) (uv ts : ℚ × ℚ) : ℚ :=
  let offs : List ℚ := [-2, -1, 0, 1, 2]
  offs.foldl (fun acc dx =>
    offs.foldl (fun acc2 dy =>
      max acc2 (texSample W H B (uv.1 + ts.1 * dx, uv.2 + ts.2 * dy))) acc) 0

/-- The `addForce` fragment shader: left-edge inflow with wobble, wake
detection and vortex shedding, multi-octave curl-noise turbulence,
near-boundary perturbation, and right-edge open-boundary relaxation.
Every term is a function of the cell position, the textures, and the
simulation time only. -/
def addForceK (o : Oracle) (W H : Nat) (V : Tex (ℚ × ℚ)) (B : Tex ℚ)
    (flowSpeed inflowWidth time : ℚ) (x y : Nat) : ℚ × ℚ :=
  let uv := cellUV W H x y
  if texSample W H B uv > 0.5 then (0, 0)
  else
    let ts := texel W H
    let v0 := texSample W H V uv
    let v1 :=
      if uv.1 < inflowWidth then
        let ramp := smoothstep 0 inflowWidth uv.1
        let inflow := flowSpeed * (1 - ramp)
        let verticalWave := o.sinF (uv.2 * 12 + time * 2) * 0.3
        let verticalNoise := (noiseG o (uv.2 * 8, time * 0.5) - 0.5) * 0.4
        let vx := v0.1 + inflow
        let vy := v0.2 + inflow * (verticalWave + verticalNoise)
        let vx := if uv.1 < 0.02 then max vx flowSpeed else vx
        (vx, vy)
      else v0
    let wake := wakeScan o W H B uv ts time
      ((List.range 25).map (fun i => (i : ℚ) + 1))
    let wd := diagScan W H B uv ts
      ((List.range 8).map (fun i => 2 * (i : ℚ) + 1)) (wake.1, wake.2.1)
    let wakeStrength := wd.1
    let wakeSign := wd.2
    let v2 :=
      if wakeStrength > 0 then
        let strouhalFreq := 0.2 * flowSpeed
        let vortexPhase := uv.1 * 20 - time * strouhalFreq * 6
        let vortex := o.sinF vortexPhase * wakeStrength * flowSpeed * 1.8
        let vortex := vortex +
          o.sinF (vortexPhase * 1.7 + 0.5) * wakeStrength * flowSpeed * 0.7
        let vortex := vortex +
          o.sinF (vortexPhase * 0.6 + 2) * wakeStrength * flowSpeed * 0.5
        let wakeNoise := fbmG o (uv.1 * 8 + time * 0.4, uv.2 * 8) - 0.5
        let vortex := vortex + wakeNoise * wakeStrength * flowSpeed * 1.2
        let vy := v1.2 + vortex * wakeSign
        let horizVariation :=
          o.sinF (vortexPhase * 0.5 + 1) * wakeStrength * flowSpeed * 0.5
        let vx := v1.1 + horizVariation
        let vx := vx * (1 - wakeStrength * 0.35)
        (vx, vy)
      else v1
    let turbScale : ℚ := 3
    let turbStrength := flowSpeed * 0.5
    let n1 := fbmG o (uv.1 * turbScale, uv.2 * turbScale + time * 0.3)
    let n2 := fbmG o (uv.1 * turbScale + 0.1, uv.2 * turbScale + time * 0.3)
    let n3 := fbmG o (uv.1 * turbScale, uv.2 * turbScale + 0.1 + time * 0.3)
    let v3 := (v2.1 + (n3 - n1) * turbStrength, v2.2 + (n1 - n2) * turbStrength)
    let medScale : ℚ := 6
    let medN1 := fbmG o (uv.1 * medScale + time * 0.4, uv.2 * medScale)
    let medN2 := fbmG o (uv.1 * medScale + 0.08, uv.2 * medScale + time * 0.4)
    let medN3 := fbmG o (uv.1 * medScale, uv.2 * medScale + 0.08 + time * 0.4)
    let v4 := (v3.1 + (medN3 - medN1) * turbStrength * 0.7,
      v3.2 + (medN1 - medN2) * turbStrength * 0.7)
    let fineScale : ℚ := 12
    let fineN1 := noiseG o (uv.1 * fineScale + time * 0.6, uv.2 * fineScale)
    let fineN2 := noiseG o (uv.1 * fineScale + 0.05, uv.2 * fineScale + time * 0.6)
    let fineN3 := noiseG o (uv.1 * fineScale, uv.2 * fineScale + 0.05 + time * 0.6)
    let v5 := (v4.1 + (fineN3 - fineN1) * turbStrength * 0.5,
      v4.2 + (fineN1 - fineN2) * turbStrength * 0.5)
    let microScale : ℚ := 20
    let microN1 := noiseG o (uv.1 * microScale + time * 0.8, uv.2 * microScale)
    let microN2 := noiseG o (uv.1 * microScale + 0.03, uv.2 * microScale + time * 0.8)
    let v6 := (v5.1 + (microN2 - microN1) * turbStrength * 0.3,
      v5.2 + (microN1 - microN2) * turbStrength * 0.3)
    let nearBoundary := nearBoundaryMax W H B uv ts
    let v7 :=
      if nearBoundary > 0.5 then
        let edgeNoise := (noiseG o (uv.1 * 20 + time, uv.2 * 20) - 0.5) * 2
        (v6.1, v6.2 + edgeNoise * flowSpeed * 0.3)
      else v6
    if uv.1 > 0.92 then
      let ramp := smoothstep 0.92 1 uv.1
      (mixQ v7.1 (max v7.1 (flowSpeed * 0.5)) ramp, v7.2 * (1 - ramp * 0.5))
    else v7

/-! ### Simulation state and the per-frame `step` (`FluidSimulation.js`) -/

/-- The numeric parameters of `FluidSimulation`: the four constructor
arguments plus the fields assigned in the constructor body. -/
structure Config where
  simW : Nat
  simH : Nat
  renderW : Nat
  renderH : Nat
  dt : ℚ
  dissipation : ℚ
  pressureIterations : Nat
  flowSpeed : ℚ
  vorticityStrength : ℚ
  viscosity : ℚ
  diffusionIterations : Nat
  cacheInterval : ℤ

/-- The parameter values hard-coded in the `FluidSimulation` constructor. -/
def defaultConfig (simWidth simHeight renderWidth renderHeight : Nat) : Config :=
  { simW := simWidth
    simH := simHeight
    renderW := renderWidth
    renderH := renderHeight
    dt := 1
    dissipation := 0.998
    pressureIterations := 200
    flowSpeed := 0.02
    vorticityStrength := 2.5
    viscosity := 0.5
    diffusionIterations := 15
    cacheInterval := 5 }

/-- The mutable fields of a `FluidSimulation` instance.  Each GPU field is
represented by its current (post-swap) buffer; the CPU caches are the flat
RGBA float arrays read back by `_updateCache`, modelled as total functions
on the integer index (`getVelocityAt` computes indices that can fall
outside the real array; claim C10 treats that separately). -/
structure SimState where
  vel : Tex (ℚ × ℚ)
  press : Tex ℚ
  divg : Tex ℚ
  vort : Tex ℚ
  bound : Tex ℚ
  simTime : ℚ
  cacheFrame : ℤ
  cachedVelocity : Option (ℤ → ℚ)
  cachedPressure : Option (ℤ → ℚ)

/-- State right after `initialize` and `_createBuffers`: zeroed textures,
no obstacles, no CPU cache, `cacheFrame = -1`. -/
def initState : SimState :=
  { vel := fun _ _ => (0, 0)
    press := fun _ _ => 0
    divg := fun _ _ => 0
    vort := fun _ _ => 0
    bound := fun _ _ => 0
    simTime := 0
    cacheFrame := -1
    cachedVelocity := none
    cachedPressure := none }

/-- RGBA layout of the velocity texture as read back by `readPixels`:
element `(y·W + x)·4 + c` holds `vx`, `vy`, `0`, `1` for `c = 0..3`. -/
def flattenVel (W : Nat) (T : Tex (ℚ × ℚ)) : ℤ → ℚ := fun i =>
  let q := i / 4
  let c := i % 4
  let cx := (q % (W : ℤ)).toNat
  let cy := (q / (W : ℤ)).toNat
  if c = 0 then (T cx cy).1
  else if c = 1 then (T cx cy).2
  else if c = 2 then 0
  else 1

/-- RGBA layout of the pressure texture as read back by `readPixels`. -/
def flattenPress (W : Nat) (T : Tex ℚ) : ℤ → ℚ := fun i =>
  let q := i / 4
  let c := i % 4
  let cx := (q % (W : ℤ)).toNat
  let cy := (q / (W : ℤ)).toNat
  if c = 0 then T cx cy
  else if c = 2 then 0
  else if c = 1 then 0
  else 1

/-- `this._simTime += this.dt * 0.25` at the top of `step`. -/
def advanceTime (cfg : Config) (s : SimState) : SimState :=
  { s with simTime := s.simTime + cfg.dt * 0.25 }

/-- `_addForces` (dispatch of `addForce` into the back buffer, then swap);
`uInflowWidth` is hard-coded to `0.05` at the dispatch site. -/
def runAddForce (o : Oracle) (cfg : Config) (s : SimState) : SimState :=
  { s with vel := fun x y =>
      (addForceK o cfg.simW cfg.simH s.vel s.bound cfg.flowSpeed 0.05
        s.simTime x y) }

/-- `_advect(velocityA, velocityA, velocityB)` then swap. -/
def runAdvect (o : Oracle) (cfg : Config) (s : SimState) : SimState :=
  { s with vel := fun x y =>
      (advectionK o cfg.simW cfg.simH s.vel s.vel s.bound cfg.dt
        cfg.dissipation x y) }

/-- `_diffusionIteration` then swap. -/
def runDiffusionIter (cfg : Config) (s : SimState) : SimState :=
  { s with vel := fun x y =>
      diffusionK cfg.simW cfg.simH s.vel s.bound cfg.viscosity cfg.dt x y }

/-- `_enforceBoundaries` then swap. -/
def runBoundary (cfg : Config) (s : SimState) : SimState :=
  { s with vel := fun x y =>
      boundaryEnforceK cfg.simW cfg.simH s.vel s.bound x y }

/-- `_computeDivergence` (writes the single divergence buffer). -/
def runDivergence (cfg : Config) (s : SimState) : SimState :=
  { s with divg := fun x y =>
      divergenceK cfg.simW cfg.simH s.vel s.bound x y }

/-- `_clearTexture(pressureA)`: the pressure buffer is zeroed. -/
def clearPressure (s : SimState) : SimState :=
  { s with press := fun _ _ => 0 }

/-- `_pressureIteration` then swap. -/
def runPressureIter (cfg : Config) (s : SimState) : SimState :=
  { s with press := fun x y =>
      pressureK cfg.simW cfg.simH s.press s.divg s.bound x y }

/-- `_subtractGradient` then swap. -/
def runGradient (cfg : Config) (s : SimState) : SimState :=
  { s with vel := fun x y =>
      gradientK cfg.simW cfg.simH s.vel s.press s.bound x y }

/-- `_computeVorticity` (writes the single vorticity buffer). -/
def runVorticityCompute (cfg : Config) (s : SimState) : SimState :=
  { s with vort := fun x y => vorticityK cfg.simW cfg.simH s.vel x y }

/-- `_applyVorticityForce` then swap. -/
def runVorticityForce (o : Oracle) (cfg : Config) (s : SimState) : SimState :=
  { s with vel := fun x y =>
      (vorticityForceK o cfg.simW cfg.simH s.vel s.vort s.bound
        cfg.vorticityStrength cfg.dt x y) }

/-- `_updateCache` plus `this.cacheFrame = frameCount`. -/
def refreshCache (cfg : Config) (fc : ℤ) (s : SimState) : SimState :=
  { s with cachedVelocity := some (flattenVel cfg.simW s.vel)
           cachedPressure := some (flattenPress cfg.simW s.press)
           cacheFrame := fc }

/-- The cache-refresh condition
`this.cacheFrame < 0 || frameCount - this.cacheFrame >= this.cacheInterval`. -/
abbrev cacheDue (cfg : Config) (fc : ℤ) (s : SimState) : Prop :=
  s.cacheFrame < 0 ∨ cfg.cacheInterval ≤ fc - s.cacheFrame

/-- `FluidSimulation.step` on an initialised instance: the fixed pass
sequence of the source, with the diffusion loop guarded by
`viscosity > 0` and a periodic cache refresh at the end. -/
def step (o : Oracle) (cfg : Config) (fc : ℤ) (s : SimState) : SimState :=
  let s0 := advanceTime cfg s
  let s1 := runAddForce o cfg s0
  let s2 := runAdvect o cfg s1
  let s3 := if 0 < cfg.viscosity then
      (runDiffusionIter cfg)^[cfg.diffusionIterations] s2
    else s2
  let s4 := runBoundary cfg s3
  let s5 := runDivergence cfg s4
  let s6 := clearPressure s5
  let s7 := (runPressureIter cfg)^[cfg.pressureIterations] s6
  let s8 := runGradient cfg s7
  let s9 := runBoundary cfg s8
  let s10 := runVorticityCompute cfg s9
  let s11 := runVorticityForce o cfg s10
  if s11.cacheFrame < 0 ∨ cfg.cacheInterval ≤ fc - s11.cacheFrame then
    refreshCache cfg fc s11
  else s11

/-- `step` including the `if (!this.initialized) return` guard. -/
def stepGuarded (o : Oracle) (cfg : Config) (ready : Bool) (fc : ℤ)
    (s : SimState) : SimState :=
  if ready then step o cfg fc s else s

/-- A sequence of `step` calls with the given frame counters. -/
def runSteps (o : Oracle) (cfg : Config) (s : SimState)
    (frames : List ℤ) : SimState :=
  frames.foldl (fun t fc => step o cfg fc t) s

/-! ### The pass sequence of `step` -/

/-- Labels for the dispatches `step` performs, including the pressure
clear and the periodic cache refresh. -/
inductive Pass where
  | force
  | advect
  | diffuse
  | boundary
  | divergence
  | clearPressure
  | pressureIter
  | gradient
  | vorticityCompute
  | vorticityForce
  | cacheRefresh
deriving DecidableEq

/-- The state transformer named by each pass label. -/
def applyPass (o : Oracle) (cfg : Config) (fc : ℤ) : Pass → SimState → SimState
  | Pass.force => runAddForce o cfg
  | Pass.advect => runAdvect o cfg
  | Pass.diffuse => runDiffusionIter cfg
  | Pass.boundary => runBoundary cfg
  | Pass.divergence => runDivergence cfg
  | Pass.clearPressure => clearPressure
  | Pass.pressureIter => runPressureIter cfg
  | Pass.gradient => runGradient cfg
  | Pass.vorticityCompute => runVorticityCompute cfg
  | Pass.vorticityForce => runVorticityForce o cfg
  | Pass.cacheRefresh => refreshCache cfg fc

/-- Run a list of passes in order. -/
def applyPasses (o : Oracle) (cfg : Config) (fc : ℤ) (ps : List Pass)
    (s : SimState) : SimState :=
  ps.foldl (fun t p => applyPass o cfg fc p t) s

/-- The pass sequence the specification claims for one frame: force
injection, advection, the configured number of diffusion iterations,
boundary enforcement, divergence, pressure clear, the configured number
of pressure Jacobi iterations, gradient subtraction, boundary enforcement
again, vorticity computation, vorticity force, and — when due — the
cache refresh. -/
def claimedPasses (cfg : Config) (due : Prop) [Decidable due] : List Pass :=
  [Pass.force, Pass.advect] ++
  List.replicate cfg.diffusionIterations Pass.diffuse ++
  [Pass.boundary, Pass.divergence, Pass.clearPressure] ++
  List.replicate cfg.pressureIterations Pass.pressureIter ++
  [Pass.gradient, Pass.boundary, Pass.vorticityCompute, Pass.vorticityForce] ++
  (if due then [Pass.cacheRefresh] else [])

theorem applyPasses_cons (o : Oracle) (cfg : Config) (fc : ℤ) (p : Pass)
    (l : List Pass) (s : SimState) :
    applyPasses o cfg fc (p :: l) s
      = applyPasses o cfg fc l (applyPass o cfg fc p s) := rfl

theorem applyPasses_nil (o : Oracle) (cfg : Config) (fc : ℤ) (s : SimState) :
    applyPasses o cfg fc [] s = s := rfl

theorem applyPasses_append (o : Oracle) (cfg : Config) (fc : ℤ)
    (l1 l2 : List Pass) (s : SimState) :
    applyPasses o cfg fc (l1 ++ l2) s
      = applyPasses o cfg fc l2 (applyPasses o cfg fc l1 s) := by
  simp only [applyPasses, List.foldl_append]

theorem applyPasses_replicate (o : Oracle) (cfg : Config) (fc : ℤ) (n : Nat)
    (p : Pass) (s : SimState) :
    applyPasses o cfg fc (List.replicate n p) s
      = (applyPass o cfg fc p)^[n] s := by
  induction n generalizing s with
  | zero => rfl
  | succ m ih =>
    rw [List.replicate_succ, applyPasses_cons, ih,
      Function.iterate_succ_apply]

@[simp] theorem cacheFrame_advanceTime (cfg : Config) (s : SimState) :
    (advanceTime cfg s).cacheFrame = s.cacheFrame := rfl

@[simp] theorem cacheFrame_runAddForce (o : Oracle) (cfg : Config)
    (s : SimState) : (runAddForce o cfg s).cacheFrame = s.cacheFrame := rfl

@[simp] theorem cacheFrame_runAdvect (o : Oracle) (cfg : Config)
    (s : SimState) : (runAdvect o cfg s).cacheFrame = s.cacheFrame := rfl

@[simp] theorem cacheFrame_runDiffusionIter (cfg : Config) (s : SimState) :
    (runDiffusionIter cfg s).cacheFrame = s.cacheFrame := rfl

@[simp] theorem cacheFrame_runBoundary (cfg : Config) (s : SimState) :
    (runBoundary cfg s).cacheFrame = s.cacheFrame := rfl

@[simp] theorem cacheFrame_runDivergence (cfg : Config) (s : SimState) :
    (runDivergence cfg s).cacheFrame = s.cacheFrame := rfl

@[simp] theorem cacheFrame_clearPressure (s : SimState) :
    (clearPressure s).cacheFrame = s.cacheFrame := rfl

@[simp] theorem cacheFrame_runPressureIter (cfg : Config) (s : SimState) :
    (runPressureIter cfg s).cacheFrame = s.cacheFrame := rfl

@[simp] theorem cacheFrame_runGradient (cfg : Config) (s : SimState) :
    (runGradient cfg s).cacheFrame = s.cacheFrame := rfl

@[simp] theorem cacheFrame_runVorticityCompute (cfg : Config) (s : SimState) :
    (runVorticityCompute cfg s).cacheFrame = s.cacheFrame := rfl

@[simp] theorem cacheFrame_runVorticityForce (o : Oracle) (cfg : Config)
    (s : SimState) : (runVorticityForce o cfg s).cacheFrame = s.cacheFrame :=
  rfl

theorem cacheFrame_iterate (f : SimState → SimState)
    (h : ∀ t, (f t).cacheFrame = t.cacheFrame) :
    ∀ (n : Nat) (t : SimState), (f^[n] t).cacheFrame = t.cacheFrame := by
  intro n
  induction n with
  | zero => intro t; rfl
  | succ m ih =>
    intro t
    rw [Function.iterate_succ_apply, ih, h]

@[simp] theorem cacheFrame_iterate_pressure (cfg : Config) (n : Nat)
    (t : SimState) :
    ((runPressureIter cfg)^[n] t).cacheFrame = t.cacheFrame :=
  cacheFrame_iterate (runPressureIter cfg) (fun _ => rfl) n t

@[simp] theorem cacheFrame_iterate_diffusion (cfg : Config) (n : Nat)
    (t : SimState) :
    ((runDiffusionIter cfg)^[n] t).cacheFrame = t.cacheFrame :=
  cacheFrame_iterate (runDiffusionIter cfg) (fun _ => rfl) n t

/-- Claim C5: every `step` on an initialised simulation (here with the
source's always-positive viscosity) applies exactly the pass sequence
force injection, advection, `diffusionIterations` diffusion iterations,
boundary enforcement, divergence, pressure clear, `pressureIterations`
Jacobi iterations, gradient subtraction, boundary enforcement, vorticity
computation, vorticity force, and the periodic cache refresh — none
skipped, none reordered. -/
theorem step_applies_claimed_passes (o : Oracle) (cfg : Config) (fc : ℤ)
    (s : SimState) (hv : 0 < cfg.viscosity) :
    step o cfg fc s =
      applyPasses o cfg fc (claimedPasses cfg (cacheDue cfg fc s))
        (advanceTime cfg s) := by
  have hcf : (runVorticityForce o cfg (runVorticityCompute cfg (runBoundary cfg
      (runGradient cfg ((runPressureIter cfg)^[cfg.pressureIterations]
      (clearPressure (runDivergence cfg (runBoundary cfg
      ((runDiffusionIter cfg)^[cfg.diffusionIterations]
      (runAdvect o cfg (runAddForce o cfg
      (advanceTime cfg s)))))))))))).cacheFrame = s.cacheFrame := by
    simp
  simp only [step, if_pos hv]
  rw [hcf]
  by_cases hdue : cacheDue cfg fc s
  · rw [if_pos hdue]
    simp only [claimedPasses, if_pos hdue, applyPasses_append,
      applyPasses_replicate, applyPasses_cons, applyPasses_nil, applyPass]
  · rw [if_neg hdue]
    simp only [claimedPasses, if_neg hdue, applyPasses_append,
      applyPasses_replicate, applyPasses_cons, applyPasses_nil, applyPass]

theorem step_applies_claimed_passes_witness :
    step (Oracle.mk (fun _ => 0) (fun _ => 0)) (defaultConfig 4 4 20 20) 0
        initState =
      applyPasses (Oracle.mk (fun _ => 0) (fun _ => 0))
        (defaultConfig 4 4 20 20) 0
        (claimedPasses (defaultConfig 4 4 20 20)
          (cacheDue (defaultConfig 4 4 20 20) 0 initState))
        (advanceTime (defaultConfig 4 4 20 20) initState) :=
  step_applies_claimed_passes (Oracle.mk (fun _ => 0) (fun _ => 0))
    (defaultConfig 4 4 20 20) 0 initState (by norm_num [defaultConfig])

/-! ### Determinism of `step` (claim C4) -/

/-- Claim C4: `step` consults no mutable random source — every forcing and
noise term is a pure function of cell position and the simulation clock —
so two step sequences from identical initial field state (including the
boundary mask) and identical clock progression produce identical velocity
fields. -/
theorem runSteps_deterministic (o : Oracle) (cfg : Config) (s1 s2 : SimState)
    (frames1 frames2 : List ℤ) (hs : s1 = s2) (hf : frames1 = frames2) :
    (runSteps o cfg s1 frames1).vel = (runSteps o cfg s2 frames2).vel := by
  rw [hs, hf]

theorem runSteps_deterministic_witness :
    (runSteps (Oracle.mk (fun _ => 0) (fun _ => 0)) (defaultConfig 4 4 20 20)
        initState [0, 1]).vel =
      (runSteps (Oracle.mk (fun _ => 0) (fun _ => 0)) (defaultConfig 4 4 20 20)
        initState [0, 1]).vel :=
  runSteps_deterministic (Oracle.mk (fun _ => 0) (fun _ => 0))
    (defaultConfig 4 4 20 20) initState initState [0, 1] [0, 1] rfl rfl

/-! ### No warm start of the pressure solve (claim C6) -/

theorem advanceTime_press (cfg : Config) (s : SimState) (p : Tex ℚ) :
    advanceTime cfg { s with press := p }
      = { advanceTime cfg s with press := p } := rfl

theorem runAddForce_press (o : Oracle) (cfg : Config) (s : SimState)
    (p : Tex ℚ) :
    runAddForce o cfg { s with press := p }
      = { runAddForce o cfg s with press := p } := rfl

theorem runAdvect_press (o : Oracle) (cfg : Config) (s : SimState)
    (p : Tex ℚ) :
    runAdvect o cfg { s with press := p }
      = { runAdvect o cfg s with press := p } := rfl

theorem runDiffusionIter_press (cfg : Config) (s : SimState) (p : Tex ℚ) :
    runDiffusionIter cfg { s with press := p }
      = { runDiffusionIter cfg s with press := p } := rfl

theorem runBoundary_press (cfg : Config) (s : SimState) (p : Tex ℚ) :
    runBoundary cfg { s with press := p }
      = { runBoundary cfg s with press := p } := rfl

theorem runDivergence_press (cfg : Config) (s : SimState) (p : Tex ℚ) :
    runDivergence cfg { s with press := p }
      = { runDivergence cfg s with press := p } := rfl

theorem clearPressure_press (s : SimState) (p : Tex ℚ) :
    clearPressure { s with press := p } = clearPressure s := rfl

theorem iterate_press_comm (f : SimState → SimState)
    (h : ∀ (t : SimState) (q : Tex ℚ),
      f { t with press := q } = { f t with press := q }) :
    ∀ (n : Nat) (t : SimState) (q : Tex ℚ),
      f^[n] { t with press := q } = { f^[n] t with press := q } := by
  intro n
  induction n with
  | zero => intro t q; rfl
  | succ m ih =>
    intro t q
    rw [Function.iterate_succ_apply, h, ih, Function.iterate_succ_apply]

set_option maxRecDepth 8000 in
/-- Claim C6: the pressure buffer is cleared to zero before the Jacobi
iterations run, and consequently `step`'s result never depends on the
previous frame's pressure — no warm start. -/
theorem step_no_warm_start (o : Oracle) (cfg : Config) (fc : ℤ)
    (s : SimState) (p : Tex ℚ) :
    step o cfg fc { s with press := p } = step o cfg fc s ∧
    clearPressure s = { s with press := fun _ _ => 0 } := by
  have hdi : ∀ (t : SimState) (q : Tex ℚ),
      (runDiffusionIter cfg)^[cfg.diffusionIterations] { t with press := q }
        = { (runDiffusionIter cfg)^[cfg.diffusionIterations] t with
            press := q } :=
    iterate_press_comm (runDiffusionIter cfg) (runDiffusionIter_press cfg)
      cfg.diffusionIterations
  have e1 : advanceTime cfg { s with press := p }
      = { advanceTime cfg s with press := p } := advanceTime_press cfg s p
  have e2 := (congrArg (runAddForce o cfg) e1).trans
    (runAddForce_press o cfg (advanceTime cfg s) p)
  have e3 := (congrArg (runAdvect o cfg) e2).trans
    (runAdvect_press o cfg (runAddForce o cfg (advanceTime cfg s)) p)
  constructor
  · by_cases hv : 0 < cfg.viscosity
    · have e4 := (congrArg
        ((runDiffusionIter cfg)^[cfg.diffusionIterations]) e3).trans
        (hdi (runAdvect o cfg (runAddForce o cfg (advanceTime cfg s))) p)
      have e5 := (congrArg (runBoundary cfg) e4).trans
        (runBoundary_press cfg _ p)
      have e6 := (congrArg (runDivergence cfg) e5).trans
        (runDivergence_press cfg _ p)
      have e7 := (congrArg clearPressure e6).trans (clearPressure_press _ p)
      simp only [step, if_pos hv]
      rw [e7]
    · have e5 := (congrArg (runBoundary cfg) e3).trans
        (runBoundary_press cfg _ p)
      have e6 := (congrArg (runDivergence cfg) e5).trans
        (runDivergence_press cfg _ p)
      have e7 := (congrArg clearPressure e6).trans (clearPressure_press _ p)
      simp only [step, if_neg hv]
      rw [e7]
  · rfl

/-! ### CPU velocity query (`getVelocityAt`, `_sampleCache`) -/

/-- `_sampleCache`'s linear index into the flat RGBA cache:
`(y * simWidth + x) * 4`. -/
def sampleCacheIdx (simW x y : ℤ) : ℤ := (y * simW + x) * 4

/-- `_sampleCache`: read `{vx, vy}` at the linear index, with no bounds
check. -/
def sampleCache (simW : ℤ) (cache : ℤ → ℚ) (x y : ℤ) : ℚ × ℚ :=
  (cache (sampleCacheIdx simW x y), cache (sampleCacheIdx simW x y + 1))

/-- `getVelocityAt`: default flow when the cache is absent, otherwise
bilinear interpolation of the four cached corner samples and rescaling to
render units. -/
def getVelocityAt (cfg : Config) (cache : Option (ℤ → ℚ)) (x y : ℚ) :
    ℚ × ℚ :=
  match cache with
  | none => (cfg.flowSpeed, 0)
  | some cachedVelocity =>
    let sx := x / (cfg.renderW : ℚ) * (cfg.simW : ℚ)
    let sy := y / (cfg.renderH : ℚ) * (cfg.simH : ℚ)
    let x0 := ⌊sx⌋
    let y0 := ⌊sy⌋
    let x1 := min (x0 + 1) ((cfg.simW : ℤ) - 1)
    let y1 := min (y0 + 1) ((cfg.simH : ℤ) - 1)
    let fx := sx - (x0 : ℚ)
    let fy := sy - (y0 : ℚ)
    let v00 := sampleCache (cfg.simW : ℤ) cachedVelocity x0 y0
    let v10 := sampleCache (cfg.simW : ℤ) cachedVelocity x1 y0
    let v01 := sampleCache (cfg.simW : ℤ) cachedVelocity x0 y1
    let v11 := sampleCache (cfg.simW : ℤ) cachedVelocity x1 y1
    let vx := (v00.1 * (1 - fx) + v10.1 * fx) * (1 - fy) +
      (v01.1 * (1 - fx) + v11.1 * fx) * fy
    let vy := (v00.2 * (1 - fx) + v10.2 * fx) * (1 - fy) +
      (v01.2 * (1 - fx) + v11.2 * fx) * fy
    let scaleX := (cfg.renderW : ℚ) / (cfg.simW : ℚ)
    let scaleY := (cfg.renderH : ℚ) / (cfg.simH : ℚ)
    (vx * scaleX * 0.1, vy * scaleY * 0.1)

/-- Claim C8: before the first cache refresh — in particular before any
`step` call, and permanently when initialisation failed, since the
uninitialised `step` is a no-op — the velocity query returns exactly the
default flow vector `(flowSpeed, 0)`. -/
theorem query_before_cache_default (o : Oracle) (cfg : Config) (fc : ℤ)
    (s : SimState) (x y : ℚ) :
    getVelocityAt cfg none x y = (cfg.flowSpeed, 0) ∧
    initState.cachedVelocity = none ∧
    stepGuarded o cfg false fc s = s :=
  ⟨rfl, rfl, rfl⟩

/-! ### Obstacle rasterisation (`uploadBoundaries`) -/

/-- An obstacle as passed to `uploadBoundaries`: a circle in render-space
coordinates. -/
structure Cell where
  cx : ℚ
  cy : ℚ
  radius : ℚ

/-- The per-obstacle test of the rasteriser:
`sqrt(dx·dx + dy·dy) < radius * 0.9`, with the square root supplied by
the oracle (`Math.sqrt` of a non-negative number is non-negative). -/
def cellBlocks (sqrtF : ℚ → ℚ) (rx ry : ℚ) (c : Cell) : Bool :=
  decide (sqrtF ((rx - c.cx) * (rx - c.cx) + (ry - c.cy) * (ry - c.cy))
    < c.radius * 0.9)

/-- The rasterised mask value of one grid cell: wall bands at the top and
bottom, then a linear scan of the obstacle list (the JS loop breaks at
the first hit, which is `List.any`). -/
def boundaryMaskAt (sqrtF : ℚ → ℚ) (cfg : Config) (cells : List Cell)
    (wallThickness : ℚ) (x y : Nat) : Bool :=
  let scaleX := (cfg.simW : ℚ) / (cfg.renderW : ℚ)
  let scaleY := (cfg.simH : ℚ) / (cfg.renderH : ℚ)
  let rx := ((x : ℚ) + 0.5) / scaleX
  let ry := ((y : ℚ) + 0.5) / scaleY
  decide ((y : ℚ) < wallThickness) ||
    decide ((cfg.simH : ℚ) - wallThickness ≤ (y : ℚ)) ||
    cells.any (cellBlocks sqrtF rx ry)

/-- `uploadBoundaries`: rebuild the boundary texture from the obstacle
list (255 for solid, 0 for fluid — sampled as 1 and 0); a no-op when the
simulation is not initialised. -/
def uploadBoundaries (sqrtF : ℚ → ℚ) (cfg : Config) (ready : Bool)
    (cells : List Cell) (wallThickness : ℚ) (s : SimState) : SimState :=
  if ready then
    { s with bound := fun x y =>
        if boundaryMaskAt sqrtF cfg cells wallThickness x y then 1 else 0 }
  else s

/-- Claim C9: an obstacle with radius ≤ 0 contributes no mask cell — the
rasterised mask with that obstacle in the list equals the mask with it
removed, at every grid cell, and the rasteriser is a total function (no
exception). -/
theorem mask_ignores_nonpositive_radius (sqrtF : ℚ → ℚ)
    (hs : ∀ t : ℚ, 0 ≤ t → 0 ≤ sqrtF t) (cfg : Config)
    (c : Cell) (hr : c.radius ≤ 0) (pre post : List Cell)
    (wallThickness : ℚ) (x y : Nat) :
    boundaryMaskAt sqrtF cfg (pre ++ c :: post) wallThickness x y
      = boundaryMaskAt sqrtF cfg (pre ++ post) wallThickness x y := by
  have hc : ∀ rx ry : ℚ, cellBlocks sqrtF rx ry c = false := by
    intro rx ry
    unfold cellBlocks
    simp only [decide_eq_false_iff_not, not_lt]
    calc c.radius * 0.9 ≤ 0 := by linarith
      _ ≤ sqrtF ((rx - c.cx) * (rx - c.cx) + (ry - c.cy) * (ry - c.cy)) :=
        hs _ (add_nonneg (mul_self_nonneg _) (mul_self_nonneg _))
  simp only [boundaryMaskAt, List.any_append, List.any_cons, hc,
    Bool.false_or]

theorem mask_ignores_nonpositive_radius_witness :
    boundaryMaskAt (fun _ => 0) (defaultConfig 10 10 50 50)
        ([Cell.mk 9 9 3] ++ Cell.mk 5 5 0 :: []) 4 3 3
      = boundaryMaskAt (fun _ => 0) (defaultConfig 10 10 50 50)
        ([Cell.mk 9 9 3] ++ []) 4 3 3 :=
  mask_ignores_nonpositive_radius (fun _ => 0) (fun t _ => le_refl 0)
    (defaultConfig 10 10 50 50) (Cell.mk 5 5 0) (by norm_num)
    [Cell.mk 9 9 3] [] 4 3 3

/-! ### Bounds of the bilinear query's cache indices (claim C10) -/

/-- The four cache coordinates `getVelocityAt` samples: the floors of the
mapped point and the upper neighbours clamped to the grid — the lower
indices are not clamped. -/
def queryCorners (simW simH renderW renderH : ℤ) (x y : ℚ) :
    List (ℤ × ℤ) :=
  let sx := x / (renderW : ℚ) * (simW : ℚ)
  let sy := y / (renderH : ℚ) * (simH : ℚ)
  let x0 := ⌊sx⌋
  let y0 := ⌊sy⌋
  let x1 := min (x0 + 1) (simW - 1)
  let y1 := min (y0 + 1) (simH - 1)
  [(x0, y0), (x1, y0), (x0, y1), (x1, y1)]

/-- Claim C10: for every query point inside the render domain all four
sampled cache indices are in bounds of the `4·W·H` float array, but the
lower indices are never clamped, and an out-of-domain input (here
`x = -5` on a 10×10 grid with render size 50×50) makes a corner's linear
index negative — an out-of-bounds read. -/
theorem queryCorners_bounds (W H rW rH : ℤ) (hW : 0 < W) (hH : 0 < H)
    (hrW : 0 < rW) (hrH : 0 < rH) (x y : ℚ) (hx0 : 0 ≤ x) (hx1 : x < rW)
    (hy0 : 0 ≤ y) (hy1 : y < rH) :
    (∀ c ∈ queryCorners W H rW rH x y,
      0 ≤ c.1 ∧ c.1 < W ∧ 0 ≤ c.2 ∧ c.2 < H ∧
      0 ≤ sampleCacheIdx W c.1 c.2 ∧
      sampleCacheIdx W c.1 c.2 + 3 < 4 * (W * H)) ∧
    (∃ c ∈ queryCorners 10 10 50 50 (-5) 2,
      sampleCacheIdx 10 c.1 c.2 < 0) := by
  constructor
  · have hrWQ : (0 : ℚ) < (rW : ℚ) := by exact_mod_cast hrW
    have hrHQ : (0 : ℚ) < (rH : ℚ) := by exact_mod_cast hrH
    have hWQ : (0 : ℚ) < (W : ℚ) := by exact_mod_cast hW
    have hHQ : (0 : ℚ) < (H : ℚ) := by exact_mod_cast hH
    have hsx0 : (0 : ℚ) ≤ x / (rW : ℚ) * (W : ℚ) :=
      mul_nonneg (div_nonneg hx0 hrWQ.le) hWQ.le
    have hsy0 : (0 : ℚ) ≤ y / (rH : ℚ) * (H : ℚ) :=
      mul_nonneg (div_nonneg hy0 hrHQ.le) hHQ.le
    have hsx1 : x / (rW : ℚ) * (W : ℚ) < (W : ℚ) := by
      have h1 : x / (rW : ℚ) < 1 := (div_lt_one hrWQ).mpr hx1
      calc x / (rW : ℚ) * (W : ℚ) < 1 * (W : ℚ) :=
            mul_lt_mul_of_pos_right h1 hWQ
        _ = (W : ℚ) := one_mul _
    have hsy1 : y / (rH : ℚ) * (H : ℚ) < (H : ℚ) := by
      have h1 : y / (rH : ℚ) < 1 := (div_lt_one hrHQ).mpr hy1
      calc y / (rH : ℚ) * (H : ℚ) < 1 * (H : ℚ) :=
            mul_lt_mul_of_pos_right h1 hHQ
        _ = (H : ℚ) := one_mul _
    have hx0f : 0 ≤ ⌊x / (rW : ℚ) * (W : ℚ)⌋ :=
      Int.le_floor.mpr (by exact_mod_cast hsx0)
    have hx1f : ⌊x / (rW : ℚ) * (W : ℚ)⌋ < W :=
      Int.floor_lt.mpr (by exact_mod_cast hsx1)
    have hy0f : 0 ≤ ⌊y / (rH : ℚ) * (H : ℚ)⌋ :=
      Int.le_floor.mpr (by exact_mod_cast hsy0)
    have hy1f : ⌊y / (rH : ℚ) * (H : ℚ)⌋ < H :=
      Int.floor_lt.mpr (by exact_mod_cast hsy1)
    have idx : ∀ a b : ℤ, 0 ≤ a → a < W → 0 ≤ b → b < H →
        0 ≤ sampleCacheIdx W a b ∧
        sampleCacheIdx W a b + 3 < 4 * (W * H) := by
      intro a b ha0 ha1 hb0 hb1
      unfold sampleCacheIdx
      constructor
      · nlinarith [mul_nonneg hb0 hW.le]
      · nlinarith [mul_le_mul_of_nonneg_right
          (show b ≤ H - 1 by omega) hW.le]
    intro c hc
    simp only [queryCorners, List.mem_cons, List.not_mem_nil, or_false]
      at hc
    rcases hc with rfl | rfl | rfl | rfl
    · exact ⟨hx0f, hx1f, hy0f, hy1f,
        (idx _ _ hx0f hx1f hy0f hy1f).1, (idx _ _ hx0f hx1f hy0f hy1f).2⟩
    · refine ⟨le_min (by omega) (by omega), by omega, hy0f, hy1f, ?_, ?_⟩
      · exact (idx _ _ (le_min (by omega) (by omega)) (by omega)
          hy0f hy1f).1
      · exact (idx _ _ (le_min (by omega) (by omega)) (by omega)
          hy0f hy1f).2
    · refine ⟨hx0f, hx1f, le_min (by omega) (by omega), by omega, ?_, ?_⟩
      · exact (idx _ _ hx0f hx1f (le_min (by omega) (by omega))
          (by omega)).1
      · exact (idx _ _ hx0f hx1f (le_min (by omega) (by omega))
          (by omega)).2
    · refine ⟨le_min (by omega) (by omega), by omega,
        le_min (by omega) (by omega), by omega, ?_, ?_⟩
      · exact (idx _ _ (le_min (by omega) (by omega)) (by omega)
          (le_min (by omega) (by omega)) (by omega)).1
      · exact (idx _ _ (le_min (by omega) (by omega)) (by omega)
          (le_min (by omega) (by omega)) (by omega)).2
  · refine ⟨((-1 : ℤ), (0 : ℤ)), ?_, ?_⟩
    · norm_num [queryCorners]
    · norm_num [sampleCacheIdx]

theorem queryCorners_bounds_witness :
    (∀ c ∈ queryCorners 10 10 50 50 3 7,
      0 ≤ c.1 ∧ c.1 < 10 ∧ 0 ≤ c.2 ∧ c.2 < 10 ∧
      0 ≤ sampleCacheIdx 10 c.1 c.2 ∧
      sampleCacheIdx 10 c.1 c.2 + 3 < 4 * (10 * 10)) ∧
    (∃ c ∈ queryCorners 10 10 50 50 (-5) 2,
      sampleCacheIdx 10 c.1 c.2 < 0) :=
  queryCorners_bounds 10 10 50 50 (by norm_num) (by norm_num) (by norm_num)
    (by norm_num) 3 7 (by norm_num) (by norm_num) (by norm_num)
    (by norm_num)

end FluidSim
